import Mathlib

/-!
Shallow embedding of `src/books_finder.py` (a CLI that searches two book
catalogs and downloads EPUB files from Project Gutenberg), together with
proofs settling the frozen claims about it.

Python values flowing through the program are modelled by a small JSON
datatype; Python's dynamic attribute/subscript errors are modelled by an
explicit `PyErr` error type threaded through `Except`.  Network and
filesystem effects are modelled by explicit environments and state.
-/

namespace BooksFinder

/-- JSON values, the shape of every dynamic Python value the program
manipulates (`response.json()` results, records, fields). -/
inductive Json where
  | null
  | bool (b : Bool)
  | num (n : Int)
  | str (s : String)
  | arr (xs : List Json)
  | obj (fields : List (String × Json))
deriving Repr

/-- Python runtime errors that the modelled code can raise. -/
inductive PyErr where
  | attributeError
  | keyError (k : String)
  | typeError
  | indexError
deriving DecidableEq, Repr

/-- Python truthiness (`if x:`) on JSON values. -/
def pyTruthy : Json → Bool
  | .null => false
  | .bool b => b
  | .num n => n != 0
  | .str s => !s.isEmpty
  | .arr xs => !xs.isEmpty
  | .obj fs => !fs.isEmpty

/-- Python truthiness of an optional string argument (`None` and `""` are falsy). -/
def pyTruthyStr : Option String → Bool
  | none => false
  | some s => !s.isEmpty

/-- Python truthiness of an optional int argument (`None` and `0` are falsy). -/
def pyTruthyInt : Option Int → Bool
  | none => false
  | some n => n != 0

/-- Field lookup in a JSON object's association list (Python dict lookup). -/
def lookupField (fields : List (String × Json)) (k : String) : Option Json :=
  (fields.find? (fun kv => kv.1 == k)).map (fun kv => kv.2)

/-- `x.get(k, d)`: dictionary get with default; raises `AttributeError`
when the receiver is not a dict. -/
def dictGet (j : Json) (k : String) (d : Json) : Except PyErr Json :=
  match j with
  | .obj fields => .ok ((lookupField fields k).getD d)
  | _ => .error .attributeError

/-- `x[k]` for a string key: `KeyError` when absent, `TypeError` when the
receiver is not a dict. -/
def jsonSub (j : Json) (k : String) : Except PyErr Json :=
  match j with
  | .obj fields =>
    match lookupField fields k with
    | some v => .ok v
    | none => .error (.keyError k)
  | _ => .error .typeError

/-- `len(x)`: length of a list, string or dict; `TypeError` otherwise. -/
def pyLen : Json → Except PyErr Int
  | .arr xs => .ok xs.length
  | .str s => .ok s.length
  | .obj fs => .ok fs.length
  | _ => .error .typeError

/-- `x[:10]`: slicing of lists and strings; `TypeError` otherwise. -/
def pySlice10 : Json → Except PyErr Json
  | .arr xs => .ok (.arr (xs.take 10))
  | .str s => .ok (.str (String.mk (s.data.take 10)))
  | _ => .error .typeError

/-- Iteration (`for x in j`): lists yield elements, strings yield
one-character strings, dicts yield their keys; `TypeError` otherwise. -/
def pyIter : Json → Except PyErr (List Json)
  | .arr xs => .ok xs
  | .str s => .ok (s.data.map (fun c => .str (String.singleton c)))
  | .obj fs => .ok (fs.map (fun kv => .str kv.1))
  | _ => .error .typeError

/-- `x[i]` for an integer index on a list or string, with Python's
negative-index wrap-around; `IndexError` out of range, `TypeError` on
non-sequences. -/
def pyIndexInt (j : Json) (i : Int) : Except PyErr Json :=
  match j with
  | .arr xs =>
    let k := if i < 0 then i + xs.length else i
    if 0 ≤ k then
      match xs.get? k.toNat with
      | some v => .ok v
      | none => .error .indexError
    else .error .indexError
  | .str s =>
    let k := if i < 0 then i + s.length else i
    if 0 ≤ k then
      match s.data.get? k.toNat with
      | some c => .ok (.str (String.singleton c))
      | none => .error .indexError
    else .error .indexError
  | _ => .error .typeError

/-- Substring test on character lists (used for `k in s` on strings). -/
def charsContain (needle hay : List Char) : Bool :=
  (List.range (hay.length + 1)).any (fun i => needle.isPrefixOf (hay.drop i))

/-- `k in j` for a string `k`: key membership for dicts, element equality
for lists, substring test for strings; `TypeError` otherwise. -/
def pyInStr (k : String) (j : Json) : Except PyErr Bool :=
  match j with
  | .obj fs => .ok (fs.any (fun kv => kv.1 == k))
  | .arr xs => .ok (xs.any (fun x => match x with | .str s => s == k | _ => false))
  | .str s => .ok (charsContain k.data s.data)
  | _ => .error .typeError

/-- Coerce a JSON value that must be a Python `str`; `TypeError` otherwise
(e.g. `", ".join` over non-string elements, `re.sub` on a non-string). -/
def expectStr : Json → Except PyErr String
  | .str s => .ok s
  | _ => .error .typeError

/-- Left-to-right effectful map over a list (a Python list comprehension:
the first failing element raises). -/
def exceptMapList (f : Json → Except PyErr Json) : List Json → Except PyErr (List Json)
  | [] => .ok []
  | x :: xs => do
    let y ← f x
    let ys ← exceptMapList f xs
    return y :: ys

/-- Coerce every element of a list to a Python `str`, left to right. -/
def expectStrList : List Json → Except PyErr (List String)
  | [] => .ok []
  | x :: xs => do
    let s ← expectStr x
    let ss ← expectStrList xs
    return s :: ss

/-- `", ".join(xs)`: every element must be a string. -/
def pyJoinStrs (xs : List Json) : Except PyErr String := do
  let ss ← expectStrList xs
  return String.intercalate ", " ss

mutual
/-- Python `repr` of a JSON value (used by `str` inside containers). -/
def pyRepr : Json → String
  | .null => "None"
  | .bool true => "True"
  | .bool false => "False"
  | .num n => toString n
  | .str s => "\x27" ++ s ++ "\x27"
  | .arr xs => "[" ++ pyReprList xs ++ "]"
  | .obj fs => "\x7b" ++ pyReprFields fs ++ "\x7d"

def pyReprList : List Json → String
  | [] => ""
  | [x] => pyRepr x
  | x :: y :: xs => pyRepr x ++ ", " ++ pyReprList (y :: xs)

def pyReprFields : List (String × Json) → String
  | [] => ""
  | [kv] => "\x27" ++ kv.1 ++ "\x27: " ++ pyRepr kv.2
  | kv :: kv2 :: fs => "\x27" ++ kv.1 ++ "\x27: " ++ pyRepr kv.2 ++ ", " ++ pyReprFields (kv2 :: fs)
end

/-- Python `str()` of a JSON value, as used by f-string interpolation. -/
def pyStr : Json → String
  | .str s => s
  | j => pyRepr j

/-! ## `urllib.parse.quote` and the filename sanitizer -/

/-- Uppercase hexadecimal digit for a value below 16. -/
def hexDigit (n : Nat) : Char :=
  if n < 10 then Char.ofNat (48 + n) else Char.ofNat (55 + n)

/-- Percent-encode one character as `urllib.parse.quote` does (ASCII
alphanumerics and `_.-~/` are kept, everything else is `%XX`-encoded
byte-wise over its UTF-8 encoding). -/
def quoteChar (c : Char) : String :=
  if c.isAlphanum || c == '_' || c == '.' || c == '-' || c == '~' || c == '/' then
    String.singleton c
  else
    String.join (((String.singleton c).toUTF8.toList).map
      (fun b => "%" ++ String.mk [hexDigit (b.toNat / 16), hexDigit (b.toNat % 16)]))

/-- `urllib.parse.quote` with its default safe characters. -/
def quote (s : String) : String :=
  String.join (s.data.map quoteChar)

/-- The characters `str.strip()` trims: every code point CPython treats
as whitespace — `\t \n \v \f \r`, space, U+001C-U+001F, U+0085, U+00A0,
and the Unicode space separators (U+1680, U+2000-U+200A, U+2028, U+2029,
U+202F, U+205F, U+3000). -/
def pyWs (c : Char) : Bool :=
  (0x09 ≤ c.toNat && c.toNat ≤ 0x0d) || c == ' ' ||
  (0x1c ≤ c.toNat && c.toNat ≤ 0x1f) || c.toNat == 0x85 || c.toNat == 0xa0 ||
  c.toNat == 0x1680 || (0x2000 ≤ c.toNat && c.toNat ≤ 0x200a) ||
  c.toNat == 0x2028 || c.toNat == 0x2029 || c.toNat == 0x202f ||
  c.toNat == 0x205f || c.toNat == 0x3000

/-- `str.strip()` on a character list: drop whitespace at both ends. -/
def stripChars (l : List Char) : List Char :=
  ((l.dropWhile pyWs).reverse.dropWhile pyWs).reverse

/-- The characters removed by the sanitizer's regular expression
`[<>:"/\\|?*]`. -/
def illegalChars : List Char := ['<', '>', ':', '"', '/', '\\', '|', '?', '*']

/-- `sanitize_filename` (src/books_finder.py lines 125-128):
`re.sub` with the character class `[<>:"/\\|?*]` deletes every occurrence
of those characters, then `.strip()` trims surrounding whitespace. -/
def sanitize_filename (text : String) : String :=
  String.mk (stripChars (text.data.filter (fun c => !illegalChars.contains c)))

/-- `sanitize_filename` applied to a dynamic value: `re.sub` raises
`TypeError` when its third argument is not a string. -/
def pySanitize (j : Json) : Except PyErr String :=
  match j with
  | .str s => .ok (sanitize_filename s)
  | _ => .error .typeError

/-! ## Effects: traces, filesystem, network environment -/

/-- Observable trace of one run: lines printed to stdout, URLs fetched
with `requests.get`, invocations of `download_epub` (with their `(url,
filename)` arguments), and `argparse` usage errors. -/
structure Trace where
  printed : List String := []
  netGets : List String := []
  downloads : List (String × String) := []
  usage : List String := []
deriving DecidableEq, Repr

/-- The empty trace. -/
def Trace.nil : Trace := {}

/-- Sequential composition of traces. -/
def Trace.app (a b : Trace) : Trace :=
  ⟨a.printed ++ b.printed, a.netGets ++ b.netGets,
   a.downloads ++ b.downloads, a.usage ++ b.usage⟩

instance : Append Trace := ⟨Trace.app⟩

@[simp] theorem Trace.app_printed (a b : Trace) : (a ++ b).printed = a.printed ++ b.printed := rfl

@[simp] theorem Trace.app_netGets (a b : Trace) : (a ++ b).netGets = a.netGets ++ b.netGets := rfl

@[simp] theorem Trace.app_downloads (a b : Trace) : (a ++ b).downloads = a.downloads ++ b.downloads := rfl

@[simp] theorem Trace.app_usage (a b : Trace) : (a ++ b).usage = a.usage ++ b.usage := rfl

/-- Filesystem state: directories that exist and file contents (bytes as
naturals). -/
structure FS where
  dirs : List String := []
  files : List (String × List Nat) := []
deriving DecidableEq, Repr

/-- Write (or overwrite) a file. -/
def FS.setFile (fs : FS) (p : String) (content : List Nat) : FS :=
  ⟨fs.dirs, (p, content) :: fs.files.filter (fun e => !(e.1 == p))⟩

/-- Read a file's content. -/
def FS.getFile (fs : FS) (p : String) : Option (List Nat) :=
  (fs.files.find? (fun e => e.1 == p)).map (fun e => e.2)

/-- `os.makedirs("downloads", exist_ok=True)`. -/
def FS.mkDownloads (fs : FS) : FS :=
  if fs.dirs.contains "downloads" then fs else ⟨"downloads" :: fs.dirs, fs.files⟩

/-- Does the string begin with a path separator? -/
def startsWithSlash (s : String) : Bool :=
  match s.data with
  | [] => false
  | c :: _ => c == '/'

/-- `os.path.join(a, b)` on POSIX for two components: an absolute second
component discards the first. -/
def pathJoin (a b : String) : String :=
  if startsWithSlash b then b else a ++ "/" ++ b

/-- Outcome of a plain `requests.get(url)` followed by
`raise_for_status()` and `.json()`: either a `RequestException` (transport
failure, non-2xx status, or an undecodable JSON body — the JSON decode
error is a `RequestException` subclass in the modelled `requests`
library), or the decoded JSON body. -/
inductive HttpOutcome where
  | failure (msg : String)
  | success (body : Json)

/-- Outcome of a streaming `requests.get(url, stream=True)`:
failure before the body, failure midway through `iter_content` after some
chunks were written, or the full list of body chunks. -/
inductive StreamOutcome where
  | failure (msg : String)
  | midFailure (written : List (List Nat)) (msg : String)
  | success (chunks : List (List Nat))

/-- The external world: what each GET URL returns, plain and streaming. -/
structure Env where
  net : String → HttpOutcome
  stream : String → StreamOutcome

/-! ## Search adapters (src/books_finder.py lines 9-49) -/

/-- The `params` list built by `search_project_gutenberg`: one
`search=`-term per truthy argument, lower-cased and URL-quoted. -/
def gutenbergParams (title author : Option String) : List String :=
  (if pyTruthyStr title then ["search=" ++ quote (title.getD "").toLower] else []) ++
  (if pyTruthyStr author then ["search=" ++ quote (author.getD "").toLower] else [])

/-- The URL `search_project_gutenberg` fetches. -/
def gutenbergUrl (title author : Option String) : String :=
  "https://gutendex.com/books/?" ++ String.intercalate "&" (gutenbergParams title author)

/-- `search_project_gutenberg` (lines 9-28).  Returns the trace and either
the value of `data.get('results', [])` or an uncaught Python error
(`data.get` raises `AttributeError` when the decoded body is not a JSON
object).  A `RequestException` is caught: the error is printed and `[]`
returned. -/
def search_project_gutenberg (title author : Option String) (env : Env) :
    Trace × Except PyErr Json :=
  let params := gutenbergParams title author
  if params.isEmpty then (Trace.nil, .ok (.arr []))
  else
    let url := gutenbergUrl title author
    match env.net url with
    | .failure e =>
      ({ printed := ["Error searching Project Gutenberg: " ++ e], netGets := [url] },
       .ok (.arr []))
    | .success body =>
      ({ netGets := [url] }, dictGet body "results" (.arr []))

/-- The `params` list built by `search_open_library`. -/
def openLibraryParams (title author : Option String) : List String :=
  (if pyTruthyStr title then ["title=" ++ quote (title.getD "").toLower] else []) ++
  (if pyTruthyStr author then ["author=" ++ quote (author.getD "").toLower] else [])

/-- The URL `search_open_library` fetches. -/
def openLibraryUrl (title author : Option String) : String :=
  "https://openlibrary.org/search.json?" ++ String.intercalate "&" (openLibraryParams title author)

/-- `search_open_library` (lines 30-49), structured exactly like the
Gutenberg adapter but for the `docs` key. -/
def search_open_library (title author : Option String) (env : Env) :
    Trace × Except PyErr Json :=
  let params := openLibraryParams title author
  if params.isEmpty then (Trace.nil, .ok (.arr []))
  else
    let url := openLibraryUrl title author
    match env.net url with
    | .failure e =>
      ({ printed := ["Error searching Open Library: " ++ e], netGets := [url] },
       .ok (.arr []))
    | .success body =>
      ({ netGets := [url] }, dictGet body "docs" (.arr []))

/-! ## Result presenters (src/books_finder.py lines 70-114) -/

/-- The 50-dash separator line. -/
def dashes50 : String := String.mk (List.replicate 50 '-')

/-- The header line of the Project Gutenberg presenter. -/
def gHeader (n : Int) : String := s!"\nProject Gutenberg Results ({n} found):"

/-- The header line of the Open Library presenter. -/
def oHeader (n : Int) : String := s!"\nOpen Library Results ({n} found):"

/-- Is this JSON value a Python `str`? -/
def isStrB : Json → Bool
  | .str _ => true
  | _ => false

/-- An author entry the Gutenberg presenter can render: a dict whose
`name` value is a string. -/
def authorEntryWF : Json → Bool
  | .obj afs =>
    match lookupField afs "name" with
    | some (.str _) => true
    | _ => false
  | _ => false

/-- A renderable `authors` value: a list of well-formed author entries. -/
def gAuthorsWF : Json → Bool
  | .arr as => as.all authorEntryWF
  | _ => false

/-- A `formats` value supporting the `in` operator (dict, list or string). -/
def gFormatsWF : Json → Bool
  | .obj _ => true
  | .arr _ => true
  | .str _ => true
  | _ => false

/-- A Gutenberg record the presenter renders without raising: a dict
whose `authors` value (defaulted to `[]`) is a list of well-formed author
entries and whose `formats` value (defaulted to `{}`) supports the `in`
operator. -/
def gBookWF : Json → Bool
  | .obj fields =>
    gAuthorsWF ((lookupField fields "authors").getD (.arr []))
    && gFormatsWF ((lookupField fields "formats").getD (.obj []))
  | _ => false

/-- A joinable `author_name` value: a list of strings, a string, or a
dict (whose keys are strings by construction). -/
def oAuthorsWF : Json → Bool
  | .arr as => as.all isStrB
  | .str _ => true
  | .obj _ => true
  | _ => false

/-- An Open Library record the presenter renders without raising: a dict
whose `author_name` value (defaulted to `[]`) is joinable. -/
def oBookWF : Json → Bool
  | .obj fields => oAuthorsWF ((lookupField fields "author_name").getD (.arr []))
  | _ => false

/-- The lines printed for one Project Gutenberg record at rank `i`
(lines 79-94), or the Python error raised while computing them. -/
def gRecordLines (i : Nat) (book : Json) : Except PyErr (List String) := do
  let title ← dictGet book "title" (.str "Unknown Title")
  let authorsVal ← dictGet book "authors" (.arr [])
  let authorItems ← pyIter authorsVal
  let names ← exceptMapList (fun a => jsonSub a "name") authorItems
  let authors ← pyJoinStrs names
  let bookId ← dictGet book "id" .null
  let fmts ← dictGet book "formats" (.obj [])
  let hasEpub ← pyInStr "application/epub+zip" fmts
  let st := pyStr title
  let sid := pyStr bookId
  return [s!"{i}. {st}"] ++
    (if authors.isEmpty then [] else [s!"   Author(s): {authors}"]) ++
    [s!"   ID: {sid}",
     if hasEpub then "   EPUB available: Yes" else "   EPUB available: No",
     ""]

/-- The lines printed for one Open Library record at rank `i`
(lines 105-114). -/
def oRecordLines (i : Nat) (book : Json) : Except PyErr (List String) := do
  let title ← dictGet book "title" (.str "Unknown Title")
  let anVal ← dictGet book "author_name" (.arr [])
  let anItems ← pyIter anVal
  let authors ← pyJoinStrs anItems
  let year ← dictGet book "first_publish_year" (.str "Unknown")
  let st := pyStr title
  let sy := pyStr year
  return [s!"{i}. {st}"] ++
    (if authors.isEmpty then [] else [s!"   Author(s): {authors}"]) ++
    [s!"   First published: {sy}", ""]

/-- The display loop `for i, book in enumerate(books[:10], 1)`: lines
printed before a raise are kept, the error (if any) is reported. -/
def displayLoop (f : Nat → Json → Except PyErr (List String)) :
    Nat → List Json → List String × Option PyErr
  | _, [] => ([], none)
  | i, b :: bs =>
    match f i b with
    | .error e => ([], some e)
    | .ok ls =>
      let (rest, err) := displayLoop f (i + 1) bs
      (ls ++ rest, err)

/-- Shared shape of the two presenters: empty-message on falsy input,
otherwise header, dashes and the per-record loop. -/
def displayResults (emptyMsg : String) (headerOf : Int → String)
    (f : Nat → Json → Except PyErr (List String)) (books : Json) :
    List String × Option PyErr :=
  if !pyTruthy books then ([emptyMsg], none)
  else
    match pyLen books with
    | .error e => ([], some e)
    | .ok n =>
      let header := headerOf n
      match pySlice10 books with
      | .error e => ([header, dashes50], some e)
      | .ok sliced =>
        match pyIter sliced with
        | .error e => ([header, dashes50], some e)
        | .ok items =>
          let (ls, err) := displayLoop f 1 items
          (header :: dashes50 :: ls, err)

/-- `display_gutenberg_results` (lines 70-94): the lines it prints and the
Python error it raises, if any. -/
def display_gutenberg_results (books : Json) : List String × Option PyErr :=
  displayResults "No books found on Project Gutenberg" gHeader gRecordLines books

/-- `display_openlibrary_results` (lines 96-114). -/
def display_openlibrary_results (books : Json) : List String × Option PyErr :=
  displayResults "No books found on Open Library" oHeader oRecordLines books

/-! ## Download executor and lookup-by-id (lines 51-68, 116-123, 130-147) -/

/-- `download_epub(url, filename)` (lines 51-68): on success creates the
`downloads` directory (idempotently), writes the concatenated body chunks
to `os.path.join('downloads', filename)` (overwriting any existing file)
and returns that path; on a `RequestException` before the body, prints the
error and returns `None`; on a mid-stream failure the chunks received so
far were already written. -/
def download_epub (url filename : String) (env : Env) (fs : FS) :
    FS × Trace × Option String :=
  match env.stream url with
  | .failure msg =>
    (fs,
     { printed := ["Error downloading file: " ++ msg], netGets := [url],
       downloads := [(url, filename)] },
     none)
  | .midFailure written msg =>
    let fs1 := fs.mkDownloads
    let fp := pathJoin "downloads" filename
    let fs2 := fs1.setFile fp written.flatten
    (fs2,
     { printed := ["Error downloading file: " ++ msg], netGets := [url],
       downloads := [(url, filename)] },
     none)
  | .success chunks =>
    let fs1 := fs.mkDownloads
    let fp := pathJoin "downloads" filename
    let fs2 := fs1.setFile fp chunks.flatten
    (fs2,
     { printed := ["Downloaded: " ++ fp], netGets := [url],
       downloads := [(url, filename)] },
     some fp)

/-- The URL `get_book_info` fetches for a given identifier (the
identifier is interpolated with Python `str`). -/
def bookInfoUrl (bookId : Json) : String :=
  "https://gutendex.com/books/" ++ pyStr bookId

/-- `get_book_info(book_id)` (lines 116-123): the decoded record on
success, `None` on any `RequestException` (transport, non-2xx, or JSON
decode failure). -/
def get_book_info (bookId : Json) (env : Env) : Trace × Option Json :=
  let url := bookInfoUrl bookId
  match env.net url with
  | .failure _ => ({ netGets := [url] }, none)
  | .success body => ({ netGets := [url] }, some body)

/-- The EPUB file URL template of `download_from_gutenberg`. -/
def gutenbergEbookUrl (bookId : Json) : String :=
  "https://www.gutenberg.org/ebooks/" ++ pyStr bookId ++ ".epub.noimages"

/-- The fallback filename used when the metadata lookup fails. -/
def gutenbergFallbackName (bookId : Json) : String :=
  "gutenberg_" ++ pyStr bookId ++ ".epub"

/-- Result of one whole orchestrated run (or sub-run): final filesystem,
trace, and the uncaught Python error if one was raised. -/
structure MainOut where
  fs : FS
  trace : Trace
  err : Option PyErr
deriving DecidableEq, Repr

/-- The `Author - Title.epub` filename derivation in the truthy branch of
`download_from_gutenberg` (lines 134-142); dynamic typing can raise. -/
def gutenbergDerivedName (body : Json) : Except PyErr String := do
  let title ← dictGet body "title" (.str "Unknown Title")
  let authors ← dictGet body "authors" (.arr [])
  let authorName ←
    if pyTruthy authors then do
      let a0 ← pyIndexInt authors 0
      jsonSub a0 "name"
    else
      pure (.str "Unknown Author")
  let safeAuthor ← pySanitize authorName
  let safeTitle ← pySanitize title
  return safeAuthor ++ " - " ++ safeTitle ++ ".epub"

/-- `download_from_gutenberg(book_id)` (lines 130-147): look the record
up, derive the filename (`Author - Title.epub`, or
`gutenberg_<id>.epub` when the lookup result is falsy), then run
`download_epub` on the fixed URL template. -/
def download_from_gutenberg (bookId : Json) (env : Env) (fs : FS) : MainOut :=
  let (tr, info) := get_book_info bookId env
  let fnameE : Except PyErr String :=
    match info with
    | some body =>
      if pyTruthy body then gutenbergDerivedName body
      else .ok (gutenbergFallbackName bookId)
    | none => .ok (gutenbergFallbackName bookId)
  match fnameE with
  | .error e => ⟨fs, tr, some e⟩
  | .ok fname =>
    let (fs2, tr2, _) := download_epub (gutenbergEbookUrl bookId) fname env fs
    ⟨fs2, tr ++ tr2, none⟩

/-! ## Orchestrator (`main`, src/books_finder.py lines 149-217) -/

/-- The `--source` choices. -/
inductive Source where
  | gutenberg
  | openlibrary
  | all
deriving DecidableEq, Repr

/-- Parsed command-line arguments. -/
structure Args where
  title : Option String
  author : Option String
  source : Source
  download : Option Int

/-- One search-then-display step against Project Gutenberg, as `main`
performs it: an uncaught error from either part aborts the run. -/
def searchAndDisplayG (title author : Option String) (env : Env) :
    Trace × Except PyErr Json :=
  let (tr, res) := search_project_gutenberg title author env
  match res with
  | .error e => (tr, .error e)
  | .ok books =>
    let (lines, derr) := display_gutenberg_results books
    let tr2 := tr ++ ({ printed := lines } : Trace)
    match derr with
    | some e => (tr2, .error e)
    | none => (tr2, .ok books)

/-- One search-then-display step against Open Library. -/
def searchAndDisplayO (title author : Option String) (env : Env) :
    Trace × Except PyErr Json :=
  let (tr, res) := search_open_library title author env
  match res with
  | .error e => (tr, .error e)
  | .ok books =>
    let (lines, derr) := display_openlibrary_results books
    let tr2 := tr ++ ({ printed := lines } : Trace)
    match derr with
    | some e => (tr2, .error e)
    | none => (tr2, .ok books)

/-- The range-error message: the bounds are `1` to the Gutenberg result
count; the `all` branch appends an explanatory suffix. -/
def invalidIndexMsg (n : Int) (suffix : String) : String :=
  "Invalid index. Choose between 1 and " ++ toString n ++ suffix

/-- The suffix of the `all` branch's range-error message. -/
def onlyGutenbergSuffix : String := " (only Project Gutenberg books can be downloaded)"

/-- The shared range-check-and-download body of the `gutenberg` and `all`
selection branches (lines 175-183 and 188-196); `suffix` is the extra text
of the `all` branch's range-error message. -/
def selectG (gbooks : Json) (r : Int) (suffix : String) (env : Env) (fs : FS) :
    MainOut :=
  match pyLen gbooks with
  | .error e => ⟨fs, Trace.nil, some e⟩
  | .ok n =>
    if 1 ≤ r ∧ r ≤ n then
      match pyIndexInt gbooks (r - 1) with
      | .error e => ⟨fs, Trace.nil, some e⟩
      | .ok book =>
        match dictGet book "id" .null with
        | .error e => ⟨fs, Trace.nil, some e⟩
        | .ok bid =>
          match (do
              let f ← dictGet book "formats" (.obj [])
              dictGet f "application/epub+zip" .null : Except PyErr Json) with
          | .error e => ⟨fs, Trace.nil, some e⟩
          | .ok v =>
            if pyTruthy v then download_from_gutenberg bid env fs
            else
              ⟨fs, { printed := ["EPUB not available for book " ++ toString r] }, none⟩
    else
      ⟨fs, { printed := [invalidIndexMsg n suffix] }, none⟩

/-- The selection `if`-chain of the index mode (lines 174-196).  Only the
Project Gutenberg result list is consulted. -/
def indexSelect (src : Source) (gbooks : Json) (r : Int) (env : Env) (fs : FS) :
    MainOut :=
  if src = Source.gutenberg ∧ pyTruthy gbooks then
    selectG gbooks r "" env fs
  else if src = Source.openlibrary then
    ⟨fs, { printed := ["Direct download from Open Library is not supported yet."] }, none⟩
  else if src = Source.all then
    selectG gbooks r onlyGutenbergSuffix env fs
  else
    ⟨fs, Trace.nil, none⟩

/-- Search-and-download-by-index mode (lines 161-197): search and display
per source scope, then select by rank. -/
def mainIndexMode (title author : Option String) (src : Source) (r : Int)
    (env : Env) (fs : FS) : MainOut :=
  match (if src = Source.gutenberg ∨ src = Source.all
         then searchAndDisplayG title author env
         else (Trace.nil, .ok (.arr []))) with
  | (tr1, .error e) => ⟨fs, tr1, some e⟩
  | (tr1, .ok gbooks) =>
    match (if src = Source.openlibrary ∨ src = Source.all
           then searchAndDisplayO title author env
           else (Trace.nil, .ok (.arr []))) with
    | (tr2, .error e) => ⟨fs, tr1 ++ tr2, some e⟩
    | (tr2, .ok _) =>
      let out := indexSelect src gbooks r env fs
      ⟨out.fs, tr1 ++ tr2 ++ out.trace, out.err⟩

/-- Direct-download mode (lines 200-202): the selector is a Project
Gutenberg identifier. -/
def mainDirectMode (d : Int) (env : Env) (fs : FS) : MainOut :=
  download_from_gutenberg (.num d) env fs

/-- The usage-guidance lines printed after a search-only run
(lines 215-217). -/
def guidanceLines : List String :=
  ["\nTo download a book:",
   "- From search results: python books_finder.py --title \x27title\x27 --author \x27author\x27 --download <index>",
   "- By Project Gutenberg ID: python books_finder.py --download <ID>"]

/-- Search-only mode (lines 207-217). -/
def mainSearchOnly (title author : Option String) (src : Source)
    (env : Env) (fs : FS) : MainOut :=
  match (if src = Source.gutenberg ∨ src = Source.all
         then searchAndDisplayG title author env
         else (Trace.nil, .ok (.arr []))) with
  | (tr1, .error e) => ⟨fs, tr1, some e⟩
  | (tr1, .ok _) =>
    match (if src = Source.openlibrary ∨ src = Source.all
           then searchAndDisplayO title author env
           else (Trace.nil, .ok (.arr []))) with
    | (tr2, .error e) => ⟨fs, tr1 ++ tr2, some e⟩
    | (tr2, .ok _) =>
      ⟨fs, tr1 ++ tr2 ++ ({ printed := guidanceLines } : Trace), none⟩

/-- The `parser.error` message for a run with no inputs at all. -/
def usageMsg : String := "Must specify either --title or --author (or both)"

/-- `main` (lines 149-217): mode dispatch on the truthiness of
`args.download` and the search terms. -/
def main (args : Args) (env : Env) (fs : FS) : MainOut :=
  if pyTruthyInt args.download && (pyTruthyStr args.title || pyTruthyStr args.author) then
    mainIndexMode args.title args.author args.source ((args.download).getD 0) env fs
  else if pyTruthyInt args.download then
    mainDirectMode ((args.download).getD 0) env fs
  else if !pyTruthyStr args.title && !pyTruthyStr args.author then
    ⟨fs, { usage := [usageMsg] }, none⟩
  else
    mainSearchOnly args.title args.author args.source env fs

/-! ## Lemmas about the sanitizer -/

theorem stripChars_sublist (l : List Char) : List.Sublist (stripChars l) l := by
  unfold stripChars
  have h1 : List.Sublist ((l.dropWhile pyWs).reverse.dropWhile pyWs)
      (l.dropWhile pyWs).reverse := List.dropWhile_sublist _
  have h2 : List.Sublist ((l.dropWhile pyWs).reverse.dropWhile pyWs).reverse
      (l.dropWhile pyWs) := by
    rw [← List.reverse_sublist]
    simpa using h1
  exact h2.trans (List.dropWhile_sublist _)

theorem count_dropWhile_of_not (p : Char → Bool) (l : List Char) (c : Char)
    (hc : p c = false) : (l.dropWhile p).count c = l.count c := by
  conv_rhs => rw [← List.takeWhile_append_dropWhile (p := p) (l := l)]
  rw [List.count_append]
  have h0 : (l.takeWhile p).count c = 0 := by
    apply List.count_eq_zero_of_not_mem
    intro hmem
    have := List.mem_takeWhile_imp hmem
    simp [hc] at this
  omega

theorem count_stripChars (l : List Char) (c : Char) (hc : pyWs c = false) :
    (stripChars l).count c = l.count c := by
  unfold stripChars
  rw [List.count_reverse, count_dropWhile_of_not _ _ _ hc, List.count_reverse,
    count_dropWhile_of_not _ _ _ hc]

theorem sanitize_data (s : String) :
    (sanitize_filename s).data =
      stripChars (s.data.filter (fun c => !illegalChars.contains c)) := rfl

/-- C1: `sanitize_filename` removes exactly the characters
`< > : " / \ | ? *` — the result is an order-preserving subsequence of the
input, contains no illegal character, and keeps every occurrence of every
character that is neither illegal nor surrounding-whitespace (so nothing
else is removed, beyond the trimmed whitespace at the two ends); it is a
total Lean function, hence deterministic and never failing; and
`sanitize_filename "A/B:C*D" = "ABCD"`. -/
theorem claim_c1_sanitizer (s : String) :
    List.Sublist (sanitize_filename s).data s.data
    ∧ (∀ c, c ∈ (sanitize_filename s).data → c ∉ illegalChars)
    ∧ (∀ c, c ∉ illegalChars → pyWs c = false →
        (sanitize_filename s).data.count c = s.data.count c)
    ∧ sanitize_filename "A/B:C*D" = "ABCD" := by
  refine ⟨?_, ?_, ?_, by decide⟩
  · rw [sanitize_data]
    exact (stripChars_sublist _).trans (List.filter_sublist _)
  · intro c hcmem
    rw [sanitize_data] at hcmem
    have h1 : c ∈ s.data.filter (fun c => !illegalChars.contains c) :=
      (stripChars_sublist _).subset hcmem
    simp only [List.mem_filter, Bool.not_eq_true'] at h1
    intro hmem
    rw [show illegalChars.contains c = List.elem c illegalChars from rfl,
      List.elem_eq_true_of_mem hmem] at h1
    exact absurd h1.2 (by simp)
  · intro c hill hws
    rw [sanitize_data, count_stripChars _ _ hws, List.count_filter]
    have : illegalChars.contains c = false := by
      rw [show illegalChars.contains c = List.elem c illegalChars from rfl]
      exact Bool.not_eq_true _ ▸ (by simpa [List.elem_iff] using hill)
    simp [this]
    exact hill

/-- Witness for C1 at a concrete input: the kept-characters conjunct with
its hypotheses discharged for the character `a` and input `" a/b "`. -/
theorem claim_c1_sanitizer_witness :
    (sanitize_filename " a/b ").data.count 'a' = (" a/b " : String).data.count 'a' :=
  (claim_c1_sanitizer " a/b ").2.2.1 'a' (by decide) (by decide)

/-- C2: with both search terms absent or empty, each adapter returns the
empty list without touching the network (empty trace: nothing printed, no
GET, no download). -/
theorem claim_c2_empty_short_circuit (title author : Option String) (env : Env)
    (ht : pyTruthyStr title = false) (ha : pyTruthyStr author = false) :
    search_project_gutenberg title author env = (Trace.nil, .ok (.arr []))
    ∧ search_open_library title author env = (Trace.nil, .ok (.arr [])) := by
  constructor
  · simp [search_project_gutenberg, gutenbergParams, ht, ha]
  · simp [search_open_library, openLibraryParams, ht, ha]

/-- Witness for C2: no title, empty author. -/
theorem claim_c2_empty_short_circuit_witness :
    search_project_gutenberg none (some "")
        { net := fun _ => .failure "down", stream := fun _ => .failure "down" } =
      (Trace.nil, .ok (.arr []))
    ∧ search_open_library none (some "")
        { net := fun _ => .failure "down", stream := fun _ => .failure "down" } =
      (Trace.nil, .ok (.arr [])) :=
  claim_c2_empty_short_circuit none (some "") _ (by decide) (by decide)

/-! ## Lemmas about the presenters -/

theorem ok_bind {α β : Type} (a : α) (f : α → Except PyErr β) :
    (Except.ok a : Except PyErr α) >>= f = f a := rfl

theorem error_bind {α β : Type} (e : PyErr) (f : α → Except PyErr β) :
    (Except.error e : Except PyErr α) >>= f = .error e := rfl

theorem expectStrList_ok : ∀ xs : List Json, xs.all isStrB = true →
    ∃ ss, expectStrList xs = Except.ok ss
  | [], _ => ⟨[], rfl⟩
  | x :: xs, h => by
    rw [List.all_cons, Bool.and_eq_true] at h
    obtain ⟨ss, hss⟩ := expectStrList_ok xs h.2
    cases x with
    | str s => exact ⟨s :: ss, by simp [expectStrList, expectStr, ok_bind, hss]⟩
    | null => exact absurd h.1 (by simp [isStrB])
    | bool b => exact absurd h.1 (by simp [isStrB])
    | num n => exact absurd h.1 (by simp [isStrB])
    | arr a => exact absurd h.1 (by simp [isStrB])
    | obj o => exact absurd h.1 (by simp [isStrB])

theorem pyJoinStrs_ok (xs : List Json) (h : xs.all isStrB = true) :
    ∃ s, pyJoinStrs xs = Except.ok s := by
  obtain ⟨ss, hss⟩ := expectStrList_ok xs h
  exact ⟨String.intercalate ", " ss, by simp [pyJoinStrs, ok_bind, hss]⟩

theorem all_isStrB_map_str {α : Type} (l : List α) (f : α → String) :
    (l.map (fun x => Json.str (f x))).all isStrB = true := by
  induction l with
  | nil => rfl
  | cons x xs ih => simp [isStrB, ih]

theorem exceptMapList_name_ok : ∀ as : List Json, as.all authorEntryWF = true →
    ∃ names, exceptMapList (fun a => jsonSub a "name") as = Except.ok names
      ∧ names.all isStrB = true
  | [], _ => ⟨[], rfl, rfl⟩
  | a :: as, h => by
    rw [List.all_cons, Bool.and_eq_true] at h
    obtain ⟨names, h1, h2⟩ := exceptMapList_name_ok as h.2
    have ha := h.1
    cases a with
    | obj afs =>
      rw [show authorEntryWF (Json.obj afs)
            = (match lookupField afs "name" with
               | some (.str _) => true
               | _ => false) from rfl] at ha
      cases hn : lookupField afs "name" with
      | none => rw [hn] at ha; simp at ha
      | some v =>
        cases v <;> rw [hn] at ha <;> simp at ha
        case str s =>
          have hhead : jsonSub (.obj afs) "name" = .ok (.str s) := by
            simp [jsonSub, hn]
          refine ⟨.str s :: names, ?_, ?_⟩
          · simp [exceptMapList, hhead, ok_bind, h1]
          · simp [List.all_cons, isStrB, h2]
    | null => exact absurd ha (by simp [authorEntryWF])
    | bool b => exact absurd ha (by simp [authorEntryWF])
    | num n => exact absurd ha (by simp [authorEntryWF])
    | str s => exact absurd ha (by simp [authorEntryWF])
    | arr xs => exact absurd ha (by simp [authorEntryWF])

theorem gRecordLines_ok (i : Nat) (b : Json) (hb : gBookWF b = true) :
    ∃ ls, gRecordLines i b = Except.ok ls := by
  cases b <;> simp [gBookWF] at hb
  case obj fields =>
    obtain ⟨hb1, hb2⟩ := hb
    cases hA : (lookupField fields "authors").getD (.arr []) <;> rw [hA] at hb1 <;>
      simp [gAuthorsWF] at hb1
    case arr as =>
      obtain ⟨names, hnames, hstr⟩ := exceptMapList_name_ok as (by
        rw [List.all_eq_true]; intro x hx; exact hb1 x hx)
      obtain ⟨joined, hjoin⟩ := pyJoinStrs_ok names hstr
      cases hF : (lookupField fields "formats").getD (.obj []) <;> rw [hF] at hb2 <;>
        simp [gFormatsWF] at hb2 <;>
        exact ⟨_, by
          simp [gRecordLines, dictGet, hA, hF, pyIter, ok_bind, hnames, hjoin, pyInStr]
          rfl⟩

theorem oRecordLines_ok (i : Nat) (b : Json) (hb : oBookWF b = true) :
    ∃ ls, oRecordLines i b = Except.ok ls := by
  cases b <;> simp [oBookWF] at hb
  case obj fields =>
    cases hA : (lookupField fields "author_name").getD (.arr []) <;> rw [hA] at hb <;>
      simp [oAuthorsWF] at hb
    case arr as =>
      obtain ⟨joined, hjoin⟩ := pyJoinStrs_ok as (by
        rw [List.all_eq_true]; intro x hx; exact hb x hx)
      exact ⟨_, by simp [oRecordLines, dictGet, hA, pyIter, ok_bind, hjoin]; rfl⟩
    case str s =>
      obtain ⟨joined, hjoin⟩ := pyJoinStrs_ok (s.data.map (fun c => .str (String.singleton c)))
        (all_isStrB_map_str s.data String.singleton)
      exact ⟨_, by simp [oRecordLines, dictGet, hA, pyIter, ok_bind, hjoin]; rfl⟩
    case obj fs2 =>
      obtain ⟨joined, hjoin⟩ := pyJoinStrs_ok (fs2.map (fun kv => .str kv.1))
        (all_isStrB_map_str fs2 (fun kv => kv.1))
      exact ⟨_, by simp [oRecordLines, dictGet, hA, pyIter, ok_bind, hjoin]; rfl⟩

theorem displayLoop_ok (f : Nat → Json → Except PyErr (List String)) :
    ∀ (bs : List Json) (i : Nat),
      (∀ j b, b ∈ bs → ∃ ls, f j b = Except.ok ls) →
      ∃ ls, displayLoop f i bs = (ls, none)
  | [], _, _ => ⟨[], rfl⟩
  | b :: bs, i, H => by
    obtain ⟨ls, hls⟩ := H i b (List.mem_cons_self b bs)
    obtain ⟨rest, hrest⟩ :=
      displayLoop_ok f bs (i + 1) (fun j x hx => H j x (List.mem_cons_of_mem _ hx))
    exact ⟨ls ++ rest, by simp [displayLoop, hls, hrest]⟩

theorem displayResults_arr (emptyMsg : String) (headerOf : Int → String)
    (f : Nat → Json → Except PyErr (List String)) (books : List Json)
    (hne : books ≠ [])
    (H : ∀ j b, b ∈ books.take 10 → ∃ ls, f j b = Except.ok ls) :
    ∃ ls, displayResults emptyMsg headerOf f (.arr books) =
      (headerOf books.length :: dashes50 :: ls, none) := by
  obtain ⟨ls, hloop⟩ := displayLoop_ok f (books.take 10) 1 H
  refine ⟨ls, ?_⟩
  have htr : pyTruthy (.arr books) = true := by
    simp [pyTruthy, List.isEmpty_iff]; exact hne
  unfold displayResults
  simp [htr, pyLen, pySlice10, pyIter, hloop]

theorem displayResults_take10 (emptyMsg : String) (headerOf : Int → String)
    (f : Nat → Json → Except PyErr (List String)) (b1 b2 : List Json)
    (hlen : b1.length = b2.length) (htake : b1.take 10 = b2.take 10) :
    displayResults emptyMsg headerOf f (.arr b1) =
      displayResults emptyMsg headerOf f (.arr b2) := by
  have hemp : b1.isEmpty = b2.isEmpty := by
    cases b1 <;> cases b2 <;> simp_all
  unfold displayResults
  simp [pyTruthy, pyLen, pySlice10, pyIter, hlen, htake, hemp]
  rw [hemp]

/-- C6 (amended): for result lists of well-formed records, the presenters
never raise; an empty list prints the single no-results message, a
nonempty one prints a header with the total count, a separator and then
record lines; and the record lines depend only on the first 10 records
(and the count), so at most the first 10 records are displayed. -/
theorem claim_c6_presenters (gbooks obooks : List Json)
    (hg : gbooks.all gBookWF = true) (ho : obooks.all oBookWF = true) :
    (display_gutenberg_results (.arr gbooks)).2 = none
    ∧ (display_openlibrary_results (.arr obooks)).2 = none
    ∧ (gbooks = [] →
        display_gutenberg_results (.arr gbooks) =
          (["No books found on Project Gutenberg"], none))
    ∧ (obooks = [] →
        display_openlibrary_results (.arr obooks) =
          (["No books found on Open Library"], none))
    ∧ (gbooks ≠ [] → ∃ recs, display_gutenberg_results (.arr gbooks) =
        (gHeader gbooks.length :: dashes50 :: recs, none))
    ∧ (obooks ≠ [] → ∃ recs, display_openlibrary_results (.arr obooks) =
        (oHeader obooks.length :: dashes50 :: recs, none))
    ∧ (∀ g2 : List Json, gbooks.length = g2.length → gbooks.take 10 = g2.take 10 →
        display_gutenberg_results (.arr gbooks) = display_gutenberg_results (.arr g2))
    ∧ (∀ o2 : List Json, obooks.length = o2.length → obooks.take 10 = o2.take 10 →
        display_openlibrary_results (.arr obooks) = display_openlibrary_results (.arr o2)) := by
  rw [List.all_eq_true] at hg ho
  have Hg : ∀ j b, b ∈ gbooks.take 10 → ∃ ls, gRecordLines j b = Except.ok ls :=
    fun j b hb => gRecordLines_ok j b (hg b (List.take_subset _ _ hb))
  have Ho : ∀ j b, b ∈ obooks.take 10 → ∃ ls, oRecordLines j b = Except.ok ls :=
    fun j b hb => oRecordLines_ok j b (ho b (List.take_subset _ _ hb))
  refine ⟨?_, ?_, ?_, ?_, ?_, ?_, ?_, ?_⟩
  · cases gbooks with
    | nil => rfl
    | cons b bs =>
      obtain ⟨ls, hd⟩ := displayResults_arr "No books found on Project Gutenberg"
        gHeader gRecordLines (b :: bs) (by simp) Hg
      rw [show display_gutenberg_results (.arr (b :: bs))
            = displayResults "No books found on Project Gutenberg" gHeader gRecordLines
                (.arr (b :: bs)) from rfl, hd]
  · cases obooks with
    | nil => rfl
    | cons b bs =>
      obtain ⟨ls, hd⟩ := displayResults_arr "No books found on Open Library"
        oHeader oRecordLines (b :: bs) (by simp) Ho
      rw [show display_openlibrary_results (.arr (b :: bs))
            = displayResults "No books found on Open Library" oHeader oRecordLines
                (.arr (b :: bs)) from rfl, hd]
  · intro h; subst h; rfl
  · intro h; subst h; rfl
  · intro hne
    exact displayResults_arr _ gHeader gRecordLines gbooks hne Hg
  · intro hne
    exact displayResults_arr _ oHeader oRecordLines obooks hne Ho
  · intro g2 hlen htake
    exact displayResults_take10 _ gHeader gRecordLines gbooks g2 hlen htake
  · intro o2 hlen htake
    exact displayResults_take10 _ oHeader oRecordLines obooks o2 hlen htake

/-- Witness for C6 at concrete inputs: one well-formed Gutenberg record,
an empty Open Library list. -/
theorem claim_c6_presenters_witness :
    (display_gutenberg_results (.arr [Json.obj []])).2 = none
    ∧ display_openlibrary_results (.arr ([] : List Json)) =
        (["No books found on Open Library"], none) :=
  ⟨(claim_c6_presenters [Json.obj []] [] (by decide) (by decide)).1,
   (claim_c6_presenters [Json.obj []] [] (by decide) (by decide)).2.2.2.1 rfl⟩

/-- C6 counterexample: a malformed record (the number `0` in place of a
dict) makes `display_gutenberg_results` raise `AttributeError` after the
header, so the presenters do not tolerate arbitrary malformed records. -/
theorem claim_c6_counterexample :
    display_gutenberg_results (Json.arr [Json.num 0]) =
      ([gHeader 1, dashes50], some PyErr.attributeError) := by decide

/-! ## Lemmas about the adapters -/

theorem gutenbergParams_ne_nil (title author : Option String)
    (h : pyTruthyStr title = true ∨ pyTruthyStr author = true) :
    (gutenbergParams title author).isEmpty = false := by
  rcases h with h | h <;> cases ht : pyTruthyStr title <;> cases ha : pyTruthyStr author <;>
    simp_all [gutenbergParams]

theorem openLibraryParams_ne_nil (title author : Option String)
    (h : pyTruthyStr title = true ∨ pyTruthyStr author = true) :
    (openLibraryParams title author).isEmpty = false := by
  rcases h with h | h <;> cases ht : pyTruthyStr title <;> cases ha : pyTruthyStr author <;>
    simp_all [openLibraryParams]

/-- C5 (amended): with at least one search term, each adapter, on a
transport / non-2xx / undecodable-body failure (one `RequestException`),
prints the error and returns the empty list, never raising; and on a JSON
*object* body lacking the expected key (`results` / `docs`) it degrades to
the empty list.  (A well-formed JSON body that is not an object instead
raises an uncaught `AttributeError` — see the counterexample — so the
original claim's "otherwise malformed" universal does not hold.) -/
theorem claim_c5_adapter_errors (title author : Option String) (env : Env)
    (hterm : pyTruthyStr title = true ∨ pyTruthyStr author = true) :
    (∀ msg, env.net (gutenbergUrl title author) = .failure msg →
      search_project_gutenberg title author env =
        ({ printed := ["Error searching Project Gutenberg: " ++ msg],
           netGets := [gutenbergUrl title author] }, .ok (.arr [])))
    ∧ (∀ fields, env.net (gutenbergUrl title author) = .success (.obj fields) →
        lookupField fields "results" = none →
        search_project_gutenberg title author env =
          ({ netGets := [gutenbergUrl title author] }, .ok (.arr [])))
    ∧ (∀ msg, env.net (openLibraryUrl title author) = .failure msg →
      search_open_library title author env =
        ({ printed := ["Error searching Open Library: " ++ msg],
           netGets := [openLibraryUrl title author] }, .ok (.arr [])))
    ∧ (∀ fields, env.net (openLibraryUrl title author) = .success (.obj fields) →
        lookupField fields "docs" = none →
        search_open_library title author env =
          ({ netGets := [openLibraryUrl title author] }, .ok (.arr []))) := by
  refine ⟨?_, ?_, ?_, ?_⟩
  · intro msg h
    simp [search_project_gutenberg, gutenbergParams_ne_nil title author hterm, h]
  · intro fields h hlk
    simp [search_project_gutenberg, gutenbergParams_ne_nil title author hterm, h,
      dictGet, hlk]
  · intro msg h
    simp [search_open_library, openLibraryParams_ne_nil title author hterm, h]
  · intro fields h hlk
    simp [search_open_library, openLibraryParams_ne_nil title author hterm, h,
      dictGet, hlk]

/-- Witness for C5: a failing transport for both adapters. -/
theorem claim_c5_adapter_errors_witness :
    search_project_gutenberg (some "a") none
        { net := fun _ => .failure "boom", stream := fun _ => .failure "boom" } =
      ({ printed := ["Error searching Project Gutenberg: " ++ "boom"],
         netGets := [gutenbergUrl (some "a") none] }, .ok (.arr []))
    ∧ search_open_library (some "a") none
        { net := fun _ => .failure "boom", stream := fun _ => .failure "boom" } =
      ({ printed := ["Error searching Open Library: " ++ "boom"],
         netGets := [openLibraryUrl (some "a") none] }, .ok (.arr [])) :=
  ⟨(claim_c5_adapter_errors (some "a") none _ (Or.inl (by decide))).1 "boom" rfl,
   (claim_c5_adapter_errors (some "a") none _ (Or.inl (by decide))).2.2.1 "boom" rfl⟩

/-- C5 counterexample: a well-formed JSON body that is not an object (here
the empty array) makes the adapter raise `AttributeError` at
`data.get('results', [])` instead of degrading to the empty list. -/
theorem claim_c5_counterexample :
    (search_project_gutenberg (some "a") none
      { net := fun _ => .success (.arr []), stream := fun _ => .failure "" }).2 =
      .error .attributeError := rfl

/-! ## Lemmas about the download executor and the lookup -/

theorem FS.getFile_setFile_self (fs : FS) (p : String) (c : List Nat) :
    (fs.setFile p c).getFile p = some c := by
  simp [FS.setFile, FS.getFile]

theorem find?_filter_ne (l : List (String × List Nat)) (p q : String) (h : q ≠ p) :
    (l.filter (fun e => !(e.1 == p))).find? (fun e => e.1 == q) =
      l.find? (fun e => e.1 == q) := by
  induction l with
  | nil => rfl
  | cons x xs ih =>
    by_cases hx : x.1 = p
    · have hdrop : (!(x.1 == p)) = false := by simp [hx]
      have hq : (x.1 == q) = false := by
        rw [hx]
        exact beq_false_of_ne (fun hpq => h hpq.symm)
      rw [List.filter_cons, hdrop]
      simp [List.find?_cons, hq, ih]
    · have hkeep : (!(x.1 == p)) = true := by
        simp [beq_false_of_ne hx]
      rw [List.filter_cons, hkeep]
      simp only [if_true]
      cases hq : (x.1 == q) <;> simp [List.find?_cons, hq, ih]

theorem FS.getFile_setFile_other (fs : FS) (p q : String) (c : List Nat)
    (h : q ≠ p) : (fs.setFile p c).getFile q = fs.getFile q := by
  have hq : (p == q) = false := beq_false_of_ne (fun hpq => h hpq.symm)
  simp [FS.setFile, FS.getFile, List.find?_cons, hq, find?_filter_ne fs.files p q h]

theorem FS.mem_mkDownloads (fs : FS) (d : String) :
    d ∈ fs.mkDownloads.dirs ↔ d = "downloads" ∨ d ∈ fs.dirs := by
  unfold FS.mkDownloads
  split
  · next h =>
      have hmem : "downloads" ∈ fs.dirs := List.elem_iff.mp h
      constructor
      · exact fun hd => Or.inr hd
      · rintro (rfl | hd)
        · exact hmem
        · exact hd
  · next h =>
      simp [List.mem_cons]

theorem pathJoin_rel (filename : String) (h : startsWithSlash filename = false) :
    pathJoin "downloads" filename = "downloads/" ++ filename := by
  simp [pathJoin, h]

/-- C8 (amended): for every URL and every filename not beginning with a
path separator, `download_epub` on success creates the output directory
idempotently, writes the concatenated body chunks byte-identically to
`downloads/<filename>` — overwriting whatever was there, all other files
untouched — prints the path and returns it; on transport failure, whether
before the body or midway through the stream, it prints the error and
returns the `None` sentinel.  (An absolute filename instead escapes the
output directory, because `os.path.join` discards `downloads` — see the
counterexample.) -/
theorem claim_c8_download (url filename : String) (env : Env) (fs : FS)
    (habs : startsWithSlash filename = false) :
    (∀ chunks, env.stream url = .success chunks →
      (download_epub url filename env fs).2.2 = some ("downloads/" ++ filename)
      ∧ (download_epub url filename env fs).1.getFile ("downloads/" ++ filename) =
          some chunks.flatten
      ∧ "downloads" ∈ (download_epub url filename env fs).1.dirs
      ∧ (∀ d, d ∈ (download_epub url filename env fs).1.dirs ↔
          d = "downloads" ∨ d ∈ fs.dirs)
      ∧ (∀ q, q ≠ "downloads/" ++ filename →
          (download_epub url filename env fs).1.getFile q = fs.getFile q)
      ∧ (download_epub url filename env fs).2.1 =
          { printed := ["Downloaded: " ++ ("downloads/" ++ filename)],
            netGets := [url], downloads := [(url, filename)] })
    ∧ (∀ msg, env.stream url = .failure msg →
      (download_epub url filename env fs).2.1.printed =
          ["Error downloading file: " ++ msg]
      ∧ (download_epub url filename env fs).2.2 = none)
    ∧ (∀ written msg, env.stream url = .midFailure written msg →
      (download_epub url filename env fs).2.1.printed =
          ["Error downloading file: " ++ msg]
      ∧ (download_epub url filename env fs).2.2 = none) := by
  refine ⟨?_, ?_, ?_⟩
  · intro chunks h
    have hpj := pathJoin_rel filename habs
    refine ⟨?_, ?_, ?_, ?_, ?_, ?_⟩
    · simp [download_epub, h, hpj]
    · simp [download_epub, h, hpj, FS.getFile_setFile_self]
    · simp only [download_epub, h]
      exact (FS.mem_mkDownloads fs "downloads").mpr (Or.inl rfl)
    · intro d
      simp only [download_epub, h]
      exact FS.mem_mkDownloads fs d
    · intro q hq
      simp only [download_epub, h, hpj]
      rw [FS.getFile_setFile_other _ _ _ _ hq]
      simp [FS.mkDownloads, FS.getFile]
      split <;> rfl
    · simp [download_epub, h, hpj]
  · intro msg h
    simp [download_epub, h]
  · intro written msg h
    simp [download_epub, h]

/-- Witness for C8: success and failure at concrete inputs. -/
theorem claim_c8_download_witness :
    (download_epub "u" "f.epub"
        { net := fun _ => .failure "", stream := fun _ => .success [[1, 2], [3]] }
        ⟨[], [("downloads/f.epub", [9])]⟩).1.getFile ("downloads/" ++ "f.epub") =
      some ([[1, 2], [3]] : List (List Nat)).flatten :=
  ((claim_c8_download "u" "f.epub"
      { net := fun _ => .failure "", stream := fun _ => .success [[1, 2], [3]] }
      ⟨[], [("downloads/f.epub", [9])]⟩ (by decide)).1 [[1, 2], [3]] rfl).2.1

/-- C8 counterexample: an absolute filename escapes the `downloads`
directory entirely — the file is written to `/x` and `/x` is returned, not
`downloads//x`. -/
theorem claim_c8_counterexample :
    (download_epub "u" "/x"
        { net := fun _ => .failure "", stream := fun _ => .success [[7]] }
        ⟨[], []⟩).2.2 = some "/x"
    ∧ (download_epub "u" "/x"
        { net := fun _ => .failure "", stream := fun _ => .success [[7]] }
        ⟨[], []⟩).2.2 ≠ some ("downloads/" ++ "/x")
    ∧ (download_epub "u" "/x"
        { net := fun _ => .failure "", stream := fun _ => .success [[7]] }
        ⟨[], []⟩).1.files = [("/x", [7])] := by
  refine ⟨rfl, ?_, rfl⟩
  decide

theorem download_from_gutenberg_fallback (bid : Json) (env : Env) (fs : FS) (msg : String)
    (h : env.net (bookInfoUrl bid) = .failure msg) :
    (download_from_gutenberg bid env fs).trace.downloads =
      [(gutenbergEbookUrl bid, gutenbergFallbackName bid)]
    ∧ (download_from_gutenberg bid env fs).err = none := by
  cases hs : env.stream (gutenbergEbookUrl bid) <;>
    simp [download_from_gutenberg, get_book_info, h, download_epub, hs, Trace.app]

/-- C7: `get_book_info` returns the parsed record on success and the
`None` sentinel on any `RequestException` (transport, non-2xx or parse
failure), never raising; and whenever it returns the sentinel,
`download_from_gutenberg` passes the fallback filename
`gutenberg_<id>.epub` to the download executor (and raises nothing). -/
theorem claim_c7_lookup_sentinel (bid : Json) (env : Env) (fs : FS) :
    (∀ msg, env.net (bookInfoUrl bid) = .failure msg →
        (get_book_info bid env).2 = none)
    ∧ (∀ body, env.net (bookInfoUrl bid) = .success body →
        (get_book_info bid env).2 = some body)
    ∧ ((get_book_info bid env).2 = none →
        (download_from_gutenberg bid env fs).trace.downloads =
          [(gutenbergEbookUrl bid, gutenbergFallbackName bid)]
        ∧ (download_from_gutenberg bid env fs).err = none) := by
  refine ⟨?_, ?_, ?_⟩
  · intro msg h
    simp [get_book_info, h]
  · intro body h
    simp [get_book_info, h]
  · intro hnone
    cases h : env.net (bookInfoUrl bid) with
    | success body =>
      rw [show (get_book_info bid env).2 = some body by simp [get_book_info, h]] at hnone
      cases hnone
    | failure msg =>
      exact download_from_gutenberg_fallback bid env fs msg h

/-- Witness for C7: a concrete failing lookup produces the fallback
filename for identifier `7`. -/
theorem claim_c7_lookup_sentinel_witness :
    (download_from_gutenberg (Json.num 7)
        { net := fun _ => .failure "down", stream := fun _ => .failure "down" }
        ⟨[], []⟩).trace.downloads =
      [(gutenbergEbookUrl (Json.num 7), gutenbergFallbackName (Json.num 7))] :=
  ((claim_c7_lookup_sentinel (Json.num 7)
      { net := fun _ => .failure "down", stream := fun _ => .failure "down" }
      ⟨[], []⟩).2.2
    ((claim_c7_lookup_sentinel (Json.num 7)
      { net := fun _ => .failure "down", stream := fun _ => .failure "down" }
      ⟨[], []⟩).1 "down" rfl)).1

/-! ## Lemmas about the orchestrator -/

theorem searchAndDisplayG_ok (title author : Option String) (env : Env)
    (gbody : Json) (gbooks : List Json)
    (hterm : pyTruthyStr title = true ∨ pyTruthyStr author = true)
    (hnet : env.net (gutenbergUrl title author) = .success gbody)
    (hres : dictGet gbody "results" (.arr []) = .ok (.arr gbooks))
    (hwf : gbooks.all gBookWF = true) :
    ∃ lines, searchAndDisplayG title author env =
        ({ printed := lines, netGets := [gutenbergUrl title author] }, .ok (.arr gbooks))
      ∧ (gbooks = [] → lines = ["No books found on Project Gutenberg"]) := by
  have hadapt : search_project_gutenberg title author env =
      ({ netGets := [gutenbergUrl title author] }, .ok (.arr gbooks)) := by
    simp [search_project_gutenberg, gutenbergParams_ne_nil title author hterm, hnet, hres]
  have hwf2 := hwf
  rw [List.all_eq_true] at hwf2
  have Hg : ∀ j b, b ∈ gbooks.take 10 → ∃ ls, gRecordLines j b = Except.ok ls :=
    fun j b hb => gRecordLines_ok j b (hwf2 b (List.take_subset _ _ hb))
  by_cases hne : gbooks = []
  · subst hne
    refine ⟨["No books found on Project Gutenberg"], ?_, fun _ => rfl⟩
    simp [searchAndDisplayG, hadapt]
    rfl
  · obtain ⟨recs, hd⟩ := displayResults_arr "No books found on Project Gutenberg"
      gHeader gRecordLines gbooks hne Hg
    refine ⟨gHeader gbooks.length :: dashes50 :: recs, ?_, fun h => absurd h hne⟩
    simp [searchAndDisplayG, hadapt,
      show display_gutenberg_results (.arr gbooks) =
        (gHeader gbooks.length :: dashes50 :: recs, none) from hd]
    rfl

theorem searchAndDisplayO_ok (title author : Option String) (env : Env)
    (obody : Json) (obooks : List Json)
    (hterm : pyTruthyStr title = true ∨ pyTruthyStr author = true)
    (hnet : env.net (openLibraryUrl title author) = .success obody)
    (hres : dictGet obody "docs" (.arr []) = .ok (.arr obooks))
    (hwf : obooks.all oBookWF = true) :
    ∃ lines, searchAndDisplayO title author env =
        ({ printed := lines, netGets := [openLibraryUrl title author] }, .ok (.arr obooks))
      ∧ (obooks = [] → lines = ["No books found on Open Library"]) := by
  have hadapt : search_open_library title author env =
      ({ netGets := [openLibraryUrl title author] }, .ok (.arr obooks)) := by
    simp [search_open_library, openLibraryParams_ne_nil title author hterm, hnet, hres]
  have hwf2 := hwf
  rw [List.all_eq_true] at hwf2
  have Ho : ∀ j b, b ∈ obooks.take 10 → ∃ ls, oRecordLines j b = Except.ok ls :=
    fun j b hb => oRecordLines_ok j b (hwf2 b (List.take_subset _ _ hb))
  by_cases hne : obooks = []
  · subst hne
    refine ⟨["No books found on Open Library"], ?_, fun _ => rfl⟩
    simp [searchAndDisplayO, hadapt]
    rfl
  · obtain ⟨recs, hd⟩ := displayResults_arr "No books found on Open Library"
      oHeader oRecordLines obooks hne Ho
    refine ⟨oHeader obooks.length :: dashes50 :: recs, ?_, fun h => absurd h hne⟩
    simp [searchAndDisplayO, hadapt,
      show display_openlibrary_results (.arr obooks) =
        (oHeader obooks.length :: dashes50 :: recs, none) from hd]
    rfl

theorem main_index_dispatch (title author : Option String) (src : Source) (r : Int)
    (env : Env) (fs : FS) (hr0 : r ≠ 0)
    (hterm : pyTruthyStr title = true ∨ pyTruthyStr author = true) :
    main ⟨title, author, src, some r⟩ env fs = mainIndexMode title author src r env fs := by
  have h1 : pyTruthyInt (some r) = true := by simp [pyTruthyInt, hr0]
  have h2 : (pyTruthyStr title || pyTruthyStr author) = true := by
    rcases hterm with h | h <;> simp [h]
  simp [main, h1, h2]

theorem mainIndexMode_gutenberg (title author : Option String) (r : Int)
    (env : Env) (fs : FS) (tr1 : Trace) (g : Json)
    (hg : searchAndDisplayG title author env = (tr1, Except.ok g)) :
    mainIndexMode title author Source.gutenberg r env fs =
      ⟨(indexSelect Source.gutenberg g r env fs).fs,
       tr1 ++ Trace.nil ++ (indexSelect Source.gutenberg g r env fs).trace,
       (indexSelect Source.gutenberg g r env fs).err⟩ := by
  simp [mainIndexMode, hg]

theorem mainIndexMode_all (title author : Option String) (r : Int)
    (env : Env) (fs : FS) (tr1 tr2 : Trace) (g o : Json)
    (hg : searchAndDisplayG title author env = (tr1, Except.ok g))
    (ho : searchAndDisplayO title author env = (tr2, Except.ok o)) :
    mainIndexMode title author Source.all r env fs =
      ⟨(indexSelect Source.all g r env fs).fs,
       tr1 ++ tr2 ++ (indexSelect Source.all g r env fs).trace,
       (indexSelect Source.all g r env fs).err⟩ := by
  simp [mainIndexMode, hg, ho]

theorem mainIndexMode_openlibrary (title author : Option String) (r : Int)
    (env : Env) (fs : FS) (tr2 : Trace) (o : Json)
    (ho : searchAndDisplayO title author env = (tr2, Except.ok o)) :
    mainIndexMode title author Source.openlibrary r env fs =
      ⟨fs, Trace.nil ++ tr2 ++
        ({ printed := ["Direct download from Open Library is not supported yet."] } : Trace),
       none⟩ := by
  simp [mainIndexMode, ho, indexSelect]

theorem indexSelect_gutenberg_nonempty (gbooks : List Json) (r : Int)
    (env : Env) (fs : FS) (hne : gbooks ≠ []) :
    indexSelect Source.gutenberg (.arr gbooks) r env fs =
      selectG (.arr gbooks) r "" env fs := by
  have ht : pyTruthy (.arr gbooks) = true := by
    simp [pyTruthy, List.isEmpty_iff]
    exact hne
  simp [indexSelect, ht]

theorem indexSelect_gutenberg_empty (r : Int) (env : Env) (fs : FS) :
    indexSelect Source.gutenberg (.arr []) r env fs = ⟨fs, Trace.nil, none⟩ := by
  simp [indexSelect, pyTruthy]

theorem indexSelect_all (g : Json) (r : Int) (env : Env) (fs : FS) :
    indexSelect Source.all g r env fs = selectG g r onlyGutenbergSuffix env fs := by
  simp [indexSelect]

theorem selectG_out_of_range (gbooks : List Json) (r : Int) (suffix : String)
    (env : Env) (fs : FS) (hout : ¬(1 ≤ r ∧ r ≤ (gbooks.length : Int))) :
    selectG (.arr gbooks) r suffix env fs =
      ⟨fs, { printed := [invalidIndexMsg gbooks.length suffix] }, none⟩ := by
  simp [selectG, pyLen, hout]

theorem selectG_in_range_download (gbooks : List Json) (r : Int) (suffix : String)
    (env : Env) (fs : FS) (bfields : List (String × Json)) (bid : Json)
    (ffs : List (String × Json)) (fv : Json) (imsg : String)
    (hr1 : 1 ≤ r) (hr2 : r ≤ (gbooks.length : Int))
    (hbook : gbooks.get? (r - 1).toNat = some (Json.obj bfields))
    (hid : lookupField bfields "id" = some bid)
    (hfm : lookupField bfields "formats" = some (Json.obj ffs))
    (hepub : lookupField ffs "application/epub+zip" = some fv)
    (htr : pyTruthy fv = true)
    (hinfo : env.net (bookInfoUrl bid) = .failure imsg) :
    (selectG (.arr gbooks) r suffix env fs).trace.downloads =
      [(gutenbergEbookUrl bid, gutenbergFallbackName bid)]
    ∧ (selectG (.arr gbooks) r suffix env fs).err = none := by
  have hin : (1 ≤ r ∧ r ≤ (gbooks.length : Int)) := ⟨hr1, hr2⟩
  have hneg : ¬(r - 1 < 0) := by omega
  have hpos : (0 : Int) ≤ r - 1 := by omega
  have htn : (r - 1).toNat = r.toNat - 1 := by omega
  have hbook2 : gbooks[r.toNat - 1]? = some (Json.obj bfields) := by
    rw [← List.get?_eq_getElem?, ← htn]
    exact hbook
  have hidx : pyIndexInt (.arr gbooks) (r - 1) = .ok (.obj bfields) := by
    simp [pyIndexInt, hneg, hpos, hbook2]
  have hidbase : dictGet (.obj bfields) "id" .null = .ok bid := by
    simp [dictGet, hid]
  have hfchain : (do
      let f ← dictGet (.obj bfields) "formats" (.obj [])
      dictGet f "application/epub+zip" .null : Except PyErr Json) = .ok fv := by
    simp [dictGet, hfm, hepub, ok_bind]
  have hdl := download_from_gutenberg_fallback bid env fs imsg hinfo
  have hsel : selectG (.arr gbooks) r suffix env fs =
      download_from_gutenberg bid env fs := by
    simp [selectG, pyLen, hin, hidx, hidbase, hfchain, htr]
  rw [hsel]
  exact hdl

/-- C3 (amended): in the search-and-download-by-index mode, for every
well-formed downloadable-catalog result list of length `n` and every
requested rank `r` outside `1..n`, the orchestrator prints the range-error
message citing the actual bounds `1` to `n` and performs no download —
for `source = all` unconditionally, and for `source = gutenberg` provided
the list is nonempty (with an empty list and `source = gutenberg`, no
range error is printed at all, though no download happens either — see
the counterexample). -/
theorem claim_c3_range_error (title author : Option String) (env : Env) (fs : FS)
    (gbody obody : Json) (gbooks obooks : List Json) (r : Int)
    (hterm : pyTruthyStr title = true ∨ pyTruthyStr author = true)
    (hgnet : env.net (gutenbergUrl title author) = .success gbody)
    (hgres : dictGet gbody "results" (.arr []) = .ok (.arr gbooks))
    (hgwf : gbooks.all gBookWF = true)
    (honet : env.net (openLibraryUrl title author) = .success obody)
    (hores : dictGet obody "docs" (.arr []) = .ok (.arr obooks))
    (howf : obooks.all oBookWF = true)
    (hr0 : r ≠ 0)
    (hout : r < 1 ∨ (gbooks.length : Int) < r) :
    (invalidIndexMsg gbooks.length onlyGutenbergSuffix ∈
        (main ⟨title, author, Source.all, some r⟩ env fs).trace.printed
      ∧ (main ⟨title, author, Source.all, some r⟩ env fs).trace.downloads = []
      ∧ (main ⟨title, author, Source.all, some r⟩ env fs).err = none
      ∧ (main ⟨title, author, Source.all, some r⟩ env fs).fs = fs)
    ∧ (gbooks ≠ [] →
      invalidIndexMsg gbooks.length "" ∈
          (main ⟨title, author, Source.gutenberg, some r⟩ env fs).trace.printed
      ∧ (main ⟨title, author, Source.gutenberg, some r⟩ env fs).trace.downloads = []
      ∧ (main ⟨title, author, Source.gutenberg, some r⟩ env fs).err = none
      ∧ (main ⟨title, author, Source.gutenberg, some r⟩ env fs).fs = fs) := by
  obtain ⟨glines, hgstep, _⟩ :=
    searchAndDisplayG_ok title author env gbody gbooks hterm hgnet hgres hgwf
  obtain ⟨olines, hostep, _⟩ :=
    searchAndDisplayO_ok title author env obody obooks hterm honet hores howf
  have hout2 : ¬(1 ≤ r ∧ r ≤ (gbooks.length : Int)) := by omega
  constructor
  · rw [main_index_dispatch title author Source.all r env fs hr0 hterm,
      mainIndexMode_all title author r env fs _ _ _ _ hgstep hostep,
      indexSelect_all, selectG_out_of_range gbooks r onlyGutenbergSuffix env fs hout2]
    refine ⟨?_, ?_, rfl, rfl⟩
    · simp [Trace.app]
    · simp [Trace.app]
  · intro hne
    rw [main_index_dispatch title author Source.gutenberg r env fs hr0 hterm,
      mainIndexMode_gutenberg title author r env fs _ _ hgstep,
      indexSelect_gutenberg_nonempty gbooks r env fs hne,
      selectG_out_of_range gbooks r "" env fs hout2]
    refine ⟨?_, ?_, rfl, rfl⟩
    · simp [Trace.app, Trace.nil]
    · simp [Trace.app, Trace.nil]

/-- Witness for C3: three well-formed results, requested rank 5, both
source scopes. -/
theorem claim_c3_range_error_witness :
    invalidIndexMsg (1 : Int) onlyGutenbergSuffix ∈
        (main ⟨some "a", none, Source.all, some 5⟩
          { net := fun _ =>
              .success (.obj [("results", .arr [Json.obj []]), ("docs", .arr [])]),
            stream := fun _ => .failure "" } ⟨[], []⟩).trace.printed
    ∧ (main ⟨some "a", none, Source.all, some 5⟩
          { net := fun _ =>
              .success (.obj [("results", .arr [Json.obj []]), ("docs", .arr [])]),
            stream := fun _ => .failure "" } ⟨[], []⟩).trace.downloads = [] :=
  ⟨((claim_c3_range_error (some "a") none _ ⟨[], []⟩
      (.obj [("results", .arr [Json.obj []]), ("docs", .arr [])])
      (.obj [("results", .arr [Json.obj []]), ("docs", .arr [])])
      [Json.obj []] [] 5
      (Or.inl (by decide)) rfl rfl (by decide) rfl rfl (by decide)
      (by decide) (Or.inr (by decide))).1).1,
   ((claim_c3_range_error (some "a") none _ ⟨[], []⟩
      (.obj [("results", .arr [Json.obj []]), ("docs", .arr [])])
      (.obj [("results", .arr [Json.obj []]), ("docs", .arr [])])
      [Json.obj []] [] 5
      (Or.inl (by decide)) rfl rfl (by decide) rfl rfl (by decide)
      (by decide) (Or.inr (by decide))).1).2.1⟩

/-- C3 counterexample: with `source = gutenberg`, an empty result list and
rank 5, the run prints only the no-results line — no range error citing
bounds `1` to `0` is reported (and nothing is downloaded), refuting the
claim's universal over all list lengths. -/
theorem claim_c3_counterexample :
    (main ⟨some "a", none, Source.gutenberg, some 5⟩
        { net := fun _ => .success (.obj [("results", .arr [])]),
          stream := fun _ => .failure "" } ⟨[], []⟩).trace.printed =
      ["No books found on Project Gutenberg"]
    ∧ (main ⟨some "a", none, Source.gutenberg, some 5⟩
        { net := fun _ => .success (.obj [("results", .arr [])]),
          stream := fun _ => .failure "" } ⟨[], []⟩).trace.downloads = []
    ∧ invalidIndexMsg (0 : Int) "" ∉
        (main ⟨some "a", none, Source.gutenberg, some 5⟩
          { net := fun _ => .success (.obj [("results", .arr [])]),
            stream := fun _ => .failure "" } ⟨[], []⟩).trace.printed := by
  refine ⟨rfl, rfl, ?_⟩
  decide

/-- C4: with `source = all` the rank selector is interpreted only over
the Project Gutenberg list (Catalog A): the Open Library results `obooks`
are arbitrary here and appear in no selection outcome — the range-check
bound is Catalog A's length alone, and an in-range rank selects Catalog
A's `r`-th record (witnessed by its download URL and filename); with
`source = openlibrary`, any rank prints the "not supported" message and
never downloads. -/
theorem claim_c4_selection_catalogA (title author : Option String) (env : Env) (fs : FS)
    (gbody obody : Json) (gbooks obooks : List Json) (r : Int)
    (hterm : pyTruthyStr title = true ∨ pyTruthyStr author = true)
    (hgnet : env.net (gutenbergUrl title author) = .success gbody)
    (hgres : dictGet gbody "results" (.arr []) = .ok (.arr gbooks))
    (hgwf : gbooks.all gBookWF = true)
    (honet : env.net (openLibraryUrl title author) = .success obody)
    (hores : dictGet obody "docs" (.arr []) = .ok (.arr obooks))
    (howf : obooks.all oBookWF = true)
    (hr0 : r ≠ 0) :
    ((r < 1 ∨ (gbooks.length : Int) < r) →
      invalidIndexMsg gbooks.length onlyGutenbergSuffix ∈
          (main ⟨title, author, Source.all, some r⟩ env fs).trace.printed
      ∧ (main ⟨title, author, Source.all, some r⟩ env fs).trace.downloads = [])
    ∧ (∀ bfields bid ffs fv imsg,
        1 ≤ r → r ≤ (gbooks.length : Int) →
        gbooks.get? (r - 1).toNat = some (Json.obj bfields) →
        lookupField bfields "id" = some bid →
        lookupField bfields "formats" = some (Json.obj ffs) →
        lookupField ffs "application/epub+zip" = some fv →
        pyTruthy fv = true →
        env.net (bookInfoUrl bid) = .failure imsg →
        (main ⟨title, author, Source.all, some r⟩ env fs).trace.downloads =
          [(gutenbergEbookUrl bid, gutenbergFallbackName bid)]
        ∧ (main ⟨title, author, Source.all, some r⟩ env fs).err = none)
    ∧ ("Direct download from Open Library is not supported yet." ∈
          (main ⟨title, author, Source.openlibrary, some r⟩ env fs).trace.printed
      ∧ (main ⟨title, author, Source.openlibrary, some r⟩ env fs).trace.downloads = []
      ∧ (main ⟨title, author, Source.openlibrary, some r⟩ env fs).err = none) := by
  obtain ⟨glines, hgstep, _⟩ :=
    searchAndDisplayG_ok title author env gbody gbooks hterm hgnet hgres hgwf
  obtain ⟨olines, hostep, _⟩ :=
    searchAndDisplayO_ok title author env obody obooks hterm honet hores howf
  refine ⟨?_, ?_, ?_⟩
  · intro hout
    have hout2 : ¬(1 ≤ r ∧ r ≤ (gbooks.length : Int)) := by omega
    rw [main_index_dispatch title author Source.all r env fs hr0 hterm,
      mainIndexMode_all title author r env fs _ _ _ _ hgstep hostep,
      indexSelect_all, selectG_out_of_range gbooks r onlyGutenbergSuffix env fs hout2]
    constructor
    · simp [Trace.app]
    · simp [Trace.app]
  · intro bfields bid ffs fv imsg hr1 hr2 hbook hid hfm hepub htr hinfo
    have hsel := selectG_in_range_download gbooks r onlyGutenbergSuffix env fs
      bfields bid ffs fv imsg hr1 hr2 hbook hid hfm hepub htr hinfo
    rw [main_index_dispatch title author Source.all r env fs hr0 hterm,
      mainIndexMode_all title author r env fs _ _ _ _ hgstep hostep,
      indexSelect_all]
    constructor
    · simp [Trace.app, hsel.1]
    · simp [hsel.2]
  · rw [main_index_dispatch title author Source.openlibrary r env fs hr0 hterm,
      mainIndexMode_openlibrary title author r env fs _ _ hostep]
    refine ⟨?_, ?_, rfl⟩
    · simp [Trace.app, Trace.nil]
    · simp [Trace.app, Trace.nil]

/-- Witness for C4: one downloadable record, rank 1, `source = all`; the
metadata lookup fails so the fallback filename is used. -/
theorem claim_c4_selection_catalogA_witness :
    (main ⟨some "a", none, Source.all, some 1⟩
        { net := fun u =>
            if u = bookInfoUrl (Json.num 7) then .failure "x"
            else .success (.obj [("results", .arr
              [Json.obj [("id", Json.num 7),
                ("formats", Json.obj [("application/epub+zip", Json.str "u")])]]),
              ("docs", .arr [])]),
          stream := fun _ => .failure "" } ⟨[], []⟩).trace.downloads =
      [(gutenbergEbookUrl (Json.num 7), gutenbergFallbackName (Json.num 7))] :=
  ((claim_c4_selection_catalogA (some "a") none _ ⟨[], []⟩
      (.obj [("results", .arr
        [Json.obj [("id", Json.num 7),
          ("formats", Json.obj [("application/epub+zip", Json.str "u")])]]),
        ("docs", .arr [])])
      (.obj [("results", .arr
        [Json.obj [("id", Json.num 7),
          ("formats", Json.obj [("application/epub+zip", Json.str "u")])]]),
        ("docs", .arr [])])
      [Json.obj [("id", Json.num 7),
        ("formats", Json.obj [("application/epub+zip", Json.str "u")])]] [] 1
      (Or.inl (by decide)) rfl rfl (by decide)
      rfl rfl (by decide) (by decide)).2.1
    [("id", Json.num 7), ("formats", Json.obj [("application/epub+zip", Json.str "u")])]
    (Json.num 7) [("application/epub+zip", Json.str "u")] (Json.str "u") "x"
    (by decide) (by decide) rfl rfl rfl rfl (by decide) rfl).1

/-- C9: a download-by-index request against an empty (well-formed)
Gutenberg result list: for both source scopes that include the
download-capable catalog, the run prints the "No books found on Project
Gutenberg" guidance, raises nothing, and downloads nothing. -/
theorem claim_c9_empty_gutenberg (title author : Option String) (env : Env) (fs : FS)
    (gbody obody : Json) (obooks : List Json) (r : Int)
    (hterm : pyTruthyStr title = true ∨ pyTruthyStr author = true)
    (hgnet : env.net (gutenbergUrl title author) = .success gbody)
    (hgres : dictGet gbody "results" (.arr []) = .ok (.arr []))
    (honet : env.net (openLibraryUrl title author) = .success obody)
    (hores : dictGet obody "docs" (.arr []) = .ok (.arr obooks))
    (howf : obooks.all oBookWF = true)
    (hr0 : r ≠ 0) :
    ("No books found on Project Gutenberg" ∈
        (main ⟨title, author, Source.gutenberg, some r⟩ env fs).trace.printed
      ∧ (main ⟨title, author, Source.gutenberg, some r⟩ env fs).err = none
      ∧ (main ⟨title, author, Source.gutenberg, some r⟩ env fs).trace.downloads = [])
    ∧ ("No books found on Project Gutenberg" ∈
        (main ⟨title, author, Source.all, some r⟩ env fs).trace.printed
      ∧ (main ⟨title, author, Source.all, some r⟩ env fs).err = none
      ∧ (main ⟨title, author, Source.all, some r⟩ env fs).trace.downloads = []) := by
  obtain ⟨glines, hgstep, hgnil⟩ :=
    searchAndDisplayG_ok title author env gbody [] hterm hgnet hgres rfl
  rw [hgnil rfl] at hgstep
  obtain ⟨olines, hostep, _⟩ :=
    searchAndDisplayO_ok title author env obody obooks hterm honet hores howf
  have hout2 : ¬(1 ≤ r ∧ r ≤ (([] : List Json).length : Int)) := by
    simp
    omega
  constructor
  · rw [main_index_dispatch title author Source.gutenberg r env fs hr0 hterm,
      mainIndexMode_gutenberg title author r env fs _ _ hgstep,
      indexSelect_gutenberg_empty]
    refine ⟨?_, rfl, ?_⟩
    · simp [Trace.app, Trace.nil]
    · simp [Trace.app, Trace.nil]
  · rw [main_index_dispatch title author Source.all r env fs hr0 hterm,
      mainIndexMode_all title author r env fs _ _ _ _ hgstep hostep,
      indexSelect_all, selectG_out_of_range [] r onlyGutenbergSuffix env fs hout2]
    refine ⟨?_, rfl, ?_⟩
    · simp [Trace.app]
    · simp [Trace.app]

/-- Witness for C9: empty Gutenberg results, rank 5, both scopes. -/
theorem claim_c9_empty_gutenberg_witness :
    "No books found on Project Gutenberg" ∈
        (main ⟨some "a", none, Source.gutenberg, some 5⟩
          { net := fun _ => .success (.obj [("results", .arr []), ("docs", .arr [])]),
            stream := fun _ => .failure "" } ⟨[], []⟩).trace.printed
    ∧ (main ⟨some "a", none, Source.all, some 5⟩
          { net := fun _ => .success (.obj [("results", .arr []), ("docs", .arr [])]),
            stream := fun _ => .failure "" } ⟨[], []⟩).err = none :=
  ⟨(claim_c9_empty_gutenberg (some "a") none _ ⟨[], []⟩
      (.obj [("results", .arr []), ("docs", .arr [])])
      (.obj [("results", .arr []), ("docs", .arr [])]) [] 5
      (Or.inl (by decide)) rfl rfl rfl rfl (by decide) (by decide)).1.1,
   (claim_c9_empty_gutenberg (some "a") none _ ⟨[], []⟩
      (.obj [("results", .arr []), ("docs", .arr [])])
      (.obj [("results", .arr []), ("docs", .arr [])]) [] 5
      (Or.inl (by decide)) rfl rfl rfl rfl (by decide) (by decide)).2.2.1⟩

/-! ## Lemmas for the zero-selector claim -/

theorem search_pg_downloads (title author : Option String) (env : Env) :
    (search_project_gutenberg title author env).1.downloads = [] := by
  by_cases hp : (gutenbergParams title author).isEmpty = true
  · simp [search_project_gutenberg, hp, Trace.nil]
  · cases henv : env.net (gutenbergUrl title author) <;>
      simp [search_project_gutenberg, hp, henv]

theorem search_ol_downloads (title author : Option String) (env : Env) :
    (search_open_library title author env).1.downloads = [] := by
  by_cases hp : (openLibraryParams title author).isEmpty = true
  · simp [search_open_library, hp, Trace.nil]
  · cases henv : env.net (openLibraryUrl title author) <;>
      simp [search_open_library, hp, henv]

theorem searchAndDisplayG_downloads (title author : Option String) (env : Env) :
    (searchAndDisplayG title author env).1.downloads = [] := by
  have hadl := search_pg_downloads title author env
  unfold searchAndDisplayG
  rcases hsp : search_project_gutenberg title author env with ⟨tr, res⟩
  rw [hsp] at hadl
  cases res with
  | error e => simpa using hadl
  | ok books =>
    rcases hd : display_gutenberg_results books with ⟨lines, derr⟩
    cases derr <;> simp [hd, Trace.app] <;> simpa using hadl

theorem searchAndDisplayO_downloads (title author : Option String) (env : Env) :
    (searchAndDisplayO title author env).1.downloads = [] := by
  have hadl := search_ol_downloads title author env
  unfold searchAndDisplayO
  rcases hsp : search_open_library title author env with ⟨tr, res⟩
  rw [hsp] at hadl
  cases res with
  | error e => simpa using hadl
  | ok books =>
    rcases hd : display_openlibrary_results books with ⟨lines, derr⟩
    cases derr <;> simp [hd, Trace.app] <;> simpa using hadl

theorem mainSearchOnly_downloads (title author : Option String) (src : Source)
    (env : Env) (fs : FS) :
    (mainSearchOnly title author src env fs).trace.downloads = [] := by
  unfold mainSearchOnly
  rcases h1 : (if src = Source.gutenberg ∨ src = Source.all
      then searchAndDisplayG title author env
      else (Trace.nil, Except.ok (.arr []))) with ⟨tr1, res1⟩
  have htr1 : tr1.downloads = [] := by
    by_cases hc : src = Source.gutenberg ∨ src = Source.all
    · rw [if_pos hc] at h1
      have := searchAndDisplayG_downloads title author env
      rw [h1] at this
      exact this
    · rw [if_neg hc] at h1
      cases h1
      rfl
  rcases h2 : (if src = Source.openlibrary ∨ src = Source.all
      then searchAndDisplayO title author env
      else (Trace.nil, Except.ok (.arr []))) with ⟨tr2, res2⟩
  have htr2 : tr2.downloads = [] := by
    by_cases hc : src = Source.openlibrary ∨ src = Source.all
    · rw [if_pos hc] at h2
      have := searchAndDisplayO_downloads title author env
      rw [h2] at this
      exact this
    · rw [if_neg hc] at h2
      cases h2
      rfl
  cases res1 <;> cases res2 <;> simp [Trace.app, htr1, htr2]

/-- C10: a download selector equal to 0 is falsy, so the run is
identical to one with no selector at all: with a search term present the
orchestrator runs exactly the search-only mode (which performs no
download), and with no search terms it reports the usage error without
any network access or download — never a direct download of
identifier 0. -/
theorem claim_c10_zero_selector (title author : Option String) (src : Source)
    (env : Env) (fs : FS) :
    main ⟨title, author, src, some 0⟩ env fs = main ⟨title, author, src, none⟩ env fs
    ∧ ((pyTruthyStr title || pyTruthyStr author) = true →
        main ⟨title, author, src, some 0⟩ env fs = mainSearchOnly title author src env fs
        ∧ (main ⟨title, author, src, some 0⟩ env fs).trace.downloads = [])
    ∧ ((pyTruthyStr title || pyTruthyStr author) = false →
        main ⟨title, author, src, some 0⟩ env fs =
          ⟨fs, { usage := [usageMsg] }, none⟩) := by
  refine ⟨?_, ?_, ?_⟩
  · simp [main, pyTruthyInt]
  · intro h
    have hm : main ⟨title, author, src, some 0⟩ env fs =
        mainSearchOnly title author src env fs := by
      rcases Bool.or_eq_true_iff.mp h with ht | ht <;>
        simp [main, pyTruthyInt, ht]
    exact ⟨hm, by rw [hm]; exact mainSearchOnly_downloads title author src env fs⟩
  · intro h
    rcases Bool.or_eq_false_iff.mp h with ⟨ht, ha⟩
    simp [main, pyTruthyInt, ht, ha]

/-- Witness for C10: a zero selector with a search term present runs the
search-only mode and downloads nothing. -/
theorem claim_c10_zero_selector_witness :
    main ⟨some "a", none, Source.all, some 0⟩
        { net := fun _ => .failure "down", stream := fun _ => .failure "down" } ⟨[], []⟩ =
      mainSearchOnly (some "a") none Source.all
        { net := fun _ => .failure "down", stream := fun _ => .failure "down" } ⟨[], []⟩ :=
  ((claim_c10_zero_selector (some "a") none Source.all
      { net := fun _ => .failure "down", stream := fun _ => .failure "down" }
      ⟨[], []⟩).2.1 (by decide)).1

end BooksFinder
